import Mathlib

/-!
Verification of the product-image-gallery core of this repository.

The development embeds, in Lean:

* the Express product router (`productRoutes`, in `src/unnamed/part_003`):
  the in-memory `products` array, and the GET / GET-by-id / POST / PUT /
  DELETE handlers;
* the image-side store operations (`setPrimaryImage`, image upload) of the
  two-table gallery design, which are described by the specification but whose
  FastAPI backend is not part of the sources; they are modelled from the spec;
* the client-side popup controller of
  `src/product-image-gallery/app/static/enhanced_popup.js` and `popup.js`:
  the popup-overlay lifecycle, the gallery join (`Promise.all`), and the
  save-button handling.

Modelling conventions:

* JavaScript `undefined` is `Option.none`; a JSON body field that may be
  absent has an `Option` type.
* JavaScript truthiness in `a || b` is embedded by `jsOrStr` / `jsOrNum`:
  `undefined`, the empty string and the number `0` are falsy.
* Prices are carried in integer cents (`19.99` in the source is `1999`
  here), an exact-decimal idealisation of JavaScript's binary floats; the
  only facts used about prices are equality and zero-ness, which agree with
  the source on every value appearing in it.
-/

namespace ProductRoutes

/-- A product record as stored in the `products` array of the router
(`src/unnamed/part_003`).  Every field other than `id` may be `undefined`,
because the POST handler copies `req.body` fields without validation. -/
structure Product where
  id : Int
  name : Option String
  description : Option String
  price : Option Int
  imageUrl : Option String
  thumbnailUrl : Option String
deriving Repr, DecidableEq

/-- A parsed JSON request body for the POST and PUT handlers; absent
fields are `none`. -/
structure Body where
  name : Option String
  description : Option String
  price : Option Int
  imageUrl : Option String
  thumbnailUrl : Option String
deriving Repr, DecidableEq

/-- JavaScript `x || y` for a string-valued field: `undefined` and `""` are
falsy. -/
def jsOrStr (x y : Option String) : Option String :=
  match x with
  | some s => if s = "" then y else some s
  | none => y

/-- JavaScript `x || y` for a number-valued field: `undefined` and `0` are
falsy. -/
def jsOrNum (x y : Option Int) : Option Int :=
  match x with
  | some q => if q = 0 then y else some q
  | none => y

/-- The first element of the initial `products` array (id 1, price 19.99). -/
def prod1 : Product :=
  { id := 1, name := some "Product 1", description := some "This is product 1"
    price := some 1999, imageUrl := some "/images/product1.jpg"
    thumbnailUrl := some "/images/thumbnails/product1.jpg" }

/-- The second element of the initial `products` array (id 2, price 29.99). -/
def prod2 : Product :=
  { id := 2, name := some "Product 2", description := some "This is product 2"
    price := some 2999, imageUrl := some "/images/product2.jpg"
    thumbnailUrl := some "/images/thumbnails/product2.jpg" }

/-- The third element of the initial `products` array (id 3, price 39.99). -/
def prod3 : Product :=
  { id := 3, name := some "Product 3", description := some "This is product 3"
    price := some 3999, imageUrl := some "/images/product3.jpg"
    thumbnailUrl := some "/images/thumbnails/product3.jpg" }

/-- The initial value of the mock `products` array. -/
def initialProducts : List Product := [prod1, prod2, prod3]

/-- The error signals the router can return (HTTP 404 with
`Product not found`). -/
inductive ApiError where
  | notFound
deriving Repr, DecidableEq

/-- `GET /:id`: `products.find(p => p.id === parseInt(req.params.id))`,
404 when absent. -/
def getProduct (products : List Product) (productId : Int) :
    Except ApiError Product :=
  match products.find? (fun p => p.id == productId) with
  | some p => Except.ok p
  | none => Except.error ApiError.notFound

/-- `POST /`: builds `newProduct` with `id: products.length + 1`, the body's
`name`/`description`/`price` as given, `imageUrl`/`thumbnailUrl` defaulted
through `||` to the placeholders, and pushes it.  There is no validation and
no error path in the handler. -/
def createProduct (products : List Product) (body : Body) :
    Product × List Product :=
  let newProduct : Product :=
    { id := (products.length : Int) + 1
      name := body.name
      description := body.description
      price := body.price
      imageUrl := jsOrStr body.imageUrl (some "/images/placeholder.jpg")
      thumbnailUrl := jsOrStr body.thumbnailUrl (some "/images/thumbnails/placeholder.jpg") }
  (newProduct, products ++ [newProduct])

/-- The object spread in the PUT handler:
`{...products[productIndex], name: req.body.name || prior.name, ...}`.
Every updatable field goes through JavaScript `||`. -/
def mergeProduct (prior : Product) (body : Body) : Product :=
  { id := prior.id
    name := jsOrStr body.name prior.name
    description := jsOrStr body.description prior.description
    price := jsOrNum body.price prior.price
    imageUrl := jsOrStr body.imageUrl prior.imageUrl
    thumbnailUrl := jsOrStr body.thumbnailUrl prior.thumbnailUrl }

/-- `PUT /:id`: `findIndex` locates the first product with the given id
(404 when `-1`), the merged product replaces `products[productIndex]`, and
the merged product is the response.  The recursion replaces exactly the
first match, like `findIndex` plus index assignment. -/
def updateProduct : List Product → Int → Body → Except ApiError (Product × List Product)
  | [], _, _ => Except.error ApiError.notFound
  | p :: ps, productId, body =>
    if p.id == productId then
      let updated := mergeProduct p body
      Except.ok (updated, updated :: ps)
    else
      match updateProduct ps productId body with
      | Except.error e => Except.error e
      | Except.ok (u, ps') => Except.ok (u, p :: ps')

/-- `DELETE /:id`: `findIndex` checks existence (404 when `-1`), then
`products = products.filter(p => p.id !== productId)`. -/
def deleteProduct (products : List Product) (productId : Int) :
    Except ApiError (List Product) :=
  if products.any (fun p => p.id == productId) then
    Except.ok (products.filter (fun p => p.id != productId))
  else
    Except.error ApiError.notFound

theorem getProduct_nil (productId : Int) :
    getProduct [] productId = Except.error ApiError.notFound := rfl

theorem getProduct_cons (p : Product) (ps : List Product) (productId : Int) :
    getProduct (p :: ps) productId =
      if p.id == productId then Except.ok p else getProduct ps productId := by
  cases hp : (p.id == productId) <;> simp [getProduct, List.find?_cons, hp]

/-- The PUT handler applies the `||`-merge to exactly the product that
`findIndex` (and the GET handler's `find`) locates. -/
theorem updateProduct_found (products : List Product) (productId : Int)
    (body : Body) (prior : Product)
    (h : getProduct products productId = Except.ok prior) :
    ∃ ps', updateProduct products productId body =
      Except.ok (mergeProduct prior body, ps') := by
  induction products with
  | nil => simp [getProduct_nil] at h
  | cons p ps ih =>
    rw [getProduct_cons] at h
    cases hp : (p.id == productId) with
    | true =>
      rw [hp] at h
      simp only [if_true] at h
      cases h
      exact ⟨mergeProduct prior body :: ps, by simp [updateProduct, hp]⟩
    | false =>
      rw [hp] at h
      simp only [Bool.false_eq_true, if_false] at h
      obtain ⟨ps', hps'⟩ := ih h
      exact ⟨p :: ps', by simp [updateProduct, hp, hps']⟩

theorem find?_eq_none_of_absent (products : List Product) (productId : Int)
    (h : ∀ p ∈ products, p.id ≠ productId) :
    products.find? (fun p => p.id == productId) = none :=
  List.find?_eq_none.mpr (fun p hp => by simpa using h p hp)

/-- Both the GET-by-id and the DELETE handler answer 404 for an id that no
stored product carries. -/
theorem absent_notFound (products : List Product) (productId : Int)
    (h : ∀ p ∈ products, p.id ≠ productId) :
    getProduct products productId = Except.error ApiError.notFound ∧
    deleteProduct products productId = Except.error ApiError.notFound := by
  have hfind := find?_eq_none_of_absent products productId h
  have hany : products.any (fun p => p.id == productId) = false := by
    cases hA : products.any (fun p => p.id == productId)
    · rfl
    · obtain ⟨p, hp, hpe⟩ := List.any_eq_true.mp hA
      exact (h p hp (by simpa using hpe)).elim
  constructor
  · simp [getProduct, hfind]
  · simp [deleteProduct, hany]

/-- An update body that explicitly provides `price: 0` and nothing else. -/
def bodyPriceZero : Body :=
  { name := none, description := none, price := some 0
    imageUrl := none, thumbnailUrl := none }

/-- A create/update body with every field absent. -/
def emptyBody : Body :=
  { name := none, description := none, price := none
    imageUrl := none, thumbnailUrl := none }

/-- An update body that provides the empty string for every text field. -/
def bodyEmptyStrings : Body :=
  { name := some "", description := some "", price := none
    imageUrl := some "", thumbnailUrl := some "" }

/-- C1 counterexample: `update(1, {price: 0})` on the initial store returns
product 1 completely unchanged — its price stays 1999 cents (19.99), not 0.
The `||` merge of the PUT handler treats the explicitly provided 0 as
"not provided". -/
theorem c1_counterexample :
    updateProduct initialProducts 1 bodyPriceZero =
      Except.ok (prod1, initialProducts) ∧
    prod1.price = some 1999 ∧ some (1999 : Int) ≠ some (0 : Int) :=
  ⟨rfl, rfl, by decide⟩

/-- C1 (amended): the PUT merge uses JavaScript truthiness, so an explicitly
provided `price: 0` is treated exactly like an omitted price and the prior
price is retained; only a non-zero provided price overwrites, and omitted
fields retain their prior values. -/
theorem c1_price_zero_treated_as_omitted
    (products : List Product) (productId : Int) (body : Body)
    (prior u : Product) (ps' : List Product)
    (hfind : getProduct products productId = Except.ok prior)
    (hupd : updateProduct products productId body = Except.ok (u, ps')) :
    (body.price = some 0 → u.price = prior.price) ∧
    (∀ c : Int, c ≠ 0 → body.price = some c → u.price = some c) ∧
    (body.price = none → u.price = prior.price) ∧
    (body.name = none → u.name = prior.name) := by
  obtain ⟨ps'', hu⟩ := updateProduct_found products productId body prior hfind
  rw [hupd] at hu
  simp only [Except.ok.injEq, Prod.mk.injEq] at hu
  obtain ⟨hu1, -⟩ := hu
  subst hu1
  refine ⟨?_, ?_, ?_, ?_⟩
  · intro h0; simp [mergeProduct, jsOrNum, h0]
  · intro c hc hcb; simp [mergeProduct, jsOrNum, hcb, hc]
  · intro hn; simp [mergeProduct, jsOrNum, hn]
  · intro hn; simp [mergeProduct, jsOrStr, hn]

/-- C1 witness: the amended theorem applied to the concrete call
`update(1, {price: 0})` on the initial store. -/
theorem c1_price_zero_treated_as_omitted_witness :
    (bodyPriceZero.price = some 0 → prod1.price = prod1.price) ∧
    (∀ c : Int, c ≠ 0 → bodyPriceZero.price = some c → prod1.price = some c) ∧
    (bodyPriceZero.price = none → prod1.price = prod1.price) ∧
    (bodyPriceZero.name = none → prod1.name = prod1.name) :=
  c1_price_zero_treated_as_omitted initialProducts 1 bodyPriceZero
    prod1 prod1 initialProducts rfl rfl

/-- C2 counterexample: a POST whose body is missing `name`, `description` and
`price` does not fail — the handler has no validation and no error path; the
collection grows by one product whose missing fields are stored as
`undefined`. -/
theorem c2_counterexample :
    (createProduct initialProducts emptyBody).2.length =
      initialProducts.length + 1 ∧
    (createProduct initialProducts emptyBody).1.price = none ∧
    (createProduct initialProducts emptyBody).1.name = none :=
  ⟨rfl, rfl, rfl⟩

/-- C2 (amended): create performs no validation at all.  Every request
succeeds: the body's `name`/`description`/`price` are stored unchanged (even
when absent or non-positive), `imageUrl` falls back to the placeholder via
`||`, and the new product is appended to the collection, which keeps all
prior products and grows by exactly one. -/
theorem c2_create_never_validates (products : List Product) (body : Body) :
    (createProduct products body).2 =
      products ++ [(createProduct products body).1] ∧
    (createProduct products body).1.price = body.price ∧
    (createProduct products body).1.name = body.name ∧
    (createProduct products body).1.description = body.description ∧
    (createProduct products body).1.imageUrl =
      jsOrStr body.imageUrl (some "/images/placeholder.jpg") ∧
    (createProduct products body).2.length = products.length + 1 :=
  ⟨rfl, rfl, rfl, rfl, rfl, by simp [createProduct]⟩

/-- C3: the id counter is `products.length + 1`, so ids are reused after a
deletion.  Deleting product 1 and creating a product yields the id 3, which
the still-live product 3 already carries (two live products share an id);
deleting product 3 and creating a product reassigns the deleted id 3. -/
theorem c3_id_reuse_bug :
    deleteProduct initialProducts 1 = Except.ok [prod2, prod3] ∧
    (createProduct [prod2, prod3] emptyBody).1.id = 3 ∧
    ((createProduct [prod2, prod3] emptyBody).2.filter
      (fun p => p.id == 3)).length = 2 ∧
    deleteProduct initialProducts 3 = Except.ok [prod1, prod2] ∧
    (createProduct [prod1, prod2] emptyBody).1.id = 3 :=
  ⟨rfl, rfl, rfl, rfl, rfl⟩

/-- C7: reads and deletes of an absent id fail with NotFound, and delete is
not idempotent: once a delete succeeds, the id is gone, so a repeated delete
(and a read) of the same id fails with NotFound. -/
theorem c7_notFound_and_repeat_delete
    (products : List Product) (productId : Int) :
    ((∀ p ∈ products, p.id ≠ productId) →
      getProduct products productId = Except.error ApiError.notFound ∧
      deleteProduct products productId = Except.error ApiError.notFound) ∧
    (∀ ps', deleteProduct products productId = Except.ok ps' →
      deleteProduct ps' productId = Except.error ApiError.notFound ∧
      getProduct ps' productId = Except.error ApiError.notFound) := by
  constructor
  · exact fun h => absent_notFound products productId h
  · intro ps' h
    have hps' : ps' = products.filter (fun p => p.id != productId) := by
      unfold deleteProduct at h
      cases hA : products.any (fun p => p.id == productId) <;> rw [hA] at h <;>
        simp at h
      exact h.symm
    have habs : ∀ p ∈ ps', p.id ≠ productId := by
      subst hps'
      intro p hp
      have := (List.mem_filter.mp hp).2
      simpa using this
    have hres := absent_notFound ps' productId habs
    exact ⟨hres.2, hres.1⟩

/-- C7 witness: NotFound on the never-existing id 99, and NotFound on the
second delete of id 2 after the first delete succeeded. -/
theorem c7_notFound_and_repeat_delete_witness :
    getProduct initialProducts 99 = Except.error ApiError.notFound ∧
    deleteProduct initialProducts 99 = Except.error ApiError.notFound ∧
    deleteProduct [prod1, prod3] 2 = Except.error ApiError.notFound ∧
    getProduct [prod1, prod3] 2 = Except.error ApiError.notFound := by
  refine ⟨?_, ?_, ?_, ?_⟩
  · exact ((c7_notFound_and_repeat_delete initialProducts 99).1 (by decide)).1
  · exact ((c7_notFound_and_repeat_delete initialProducts 99).1 (by decide)).2
  · exact ((c7_notFound_and_repeat_delete initialProducts 2).2 [prod1, prod3] rfl).1
  · exact ((c7_notFound_and_repeat_delete initialProducts 2).2 [prod1, prod3] rfl).2

/-- C10: the PUT merge treats a provided empty string exactly like an omitted
field — the prior value is retained for every text field — and consequently
no update can turn a non-empty text field into the empty string. -/
theorem c10_empty_string_treated_as_omitted
    (products : List Product) (productId : Int) (body : Body)
    (prior u : Product) (ps' : List Product)
    (hfind : getProduct products productId = Except.ok prior)
    (hupd : updateProduct products productId body = Except.ok (u, ps')) :
    (body.name = some "" → u.name = prior.name) ∧
    (body.description = some "" → u.description = prior.description) ∧
    (body.imageUrl = some "" → u.imageUrl = prior.imageUrl) ∧
    (body.thumbnailUrl = some "" → u.thumbnailUrl = prior.thumbnailUrl) ∧
    (prior.name ≠ some "" → u.name ≠ some "") := by
  obtain ⟨ps'', hu⟩ := updateProduct_found products productId body prior hfind
  rw [hupd] at hu
  simp only [Except.ok.injEq, Prod.mk.injEq] at hu
  obtain ⟨hu1, -⟩ := hu
  subst hu1
  refine ⟨?_, ?_, ?_, ?_, ?_⟩
  · intro h; simp [mergeProduct, jsOrStr, h]
  · intro h; simp [mergeProduct, jsOrStr, h]
  · intro h; simp [mergeProduct, jsOrStr, h]
  · intro h; simp [mergeProduct, jsOrStr, h]
  · intro hne
    cases hb : body.name with
    | none => simpa [mergeProduct, jsOrStr, hb] using hne
    | some s =>
      by_cases hs : s = ""
      · simpa [mergeProduct, jsOrStr, hb, hs] using hne
      · simp [mergeProduct, jsOrStr, hb, hs]

/-- C10 witness: the theorem applied to the concrete update of product 1
with every text field provided as the empty string. -/
theorem c10_empty_string_treated_as_omitted_witness :
    (bodyEmptyStrings.name = some "" → prod1.name = prod1.name) ∧
    (bodyEmptyStrings.description = some "" →
      prod1.description = prod1.description) ∧
    (bodyEmptyStrings.imageUrl = some "" → prod1.imageUrl = prod1.imageUrl) ∧
    (bodyEmptyStrings.thumbnailUrl = some "" →
      prod1.thumbnailUrl = prod1.thumbnailUrl) ∧
    (prod1.name ≠ some "" → prod1.name ≠ some "") :=
  c10_empty_string_treated_as_omitted initialProducts 1 bodyEmptyStrings
    prod1 prod1 initialProducts rfl rfl

end ProductRoutes

namespace ImageStore

/-- The image types of the two-table gallery design. -/
inductive ImageType where
  | main
  | detail
  | package
  | lifestyle
deriving Repr, DecidableEq

/-- An image row of the two-table design (`Images` table of the gallery
README: id, productId, url, thumbnailUrl, isPrimary, imageType, plus the
`alt_text` carried by the popup API). -/
structure Image where
  id : Int
  productId : Int
  url : String
  thumbnailUrl : String
  altText : String
  imageType : ImageType
  isPrimary : Bool
deriving Repr, DecidableEq

/-- The per-image rewrite performed by `setPrimaryImage`: inside the owning
product's image set, the flag becomes true exactly on the chosen image. -/
def setPrimaryFn (productId imageId : Int) (img : Image) : Image :=
  if img.productId == productId then
    { img with isPrimary := (img.id == imageId) }
  else img

/-- The per-image rewrite used when an upload carries `is_primary: true`:
the prior primary flag of the owning product's images is cleared. -/
def clearPrimaryFn (productId : Int) (img : Image) : Image :=
  if img.productId == productId then { img with isPrimary := false } else img

/-- Modelled from the spec: the FastAPI image backend of the
product-image-gallery app is not under `src/` (only its static frontend is);
`setPrimaryImage(productId, imageId)` "atomically flips isPrimary on exactly
one Image of that product, clearing any prior primary; fails with NotFound if
either id is unknown". -/
def setPrimaryImage (images : List Image) (productId imageId : Int) :
    Except ProductRoutes.ApiError (List Image) :=
  if images.any (fun img => img.productId == productId && img.id == imageId) then
    Except.ok (images.map (setPrimaryFn productId imageId))
  else
    Except.error ProductRoutes.ApiError.notFound

/-- A fresh image id: one more than the largest id in use. -/
def freshImageId (images : List Image) : Int :=
  (images.map (fun img => img.id)).foldr max 0 + 1

/-- Modelled from the spec: the upload endpoint
(`POST /api/popups/product/{id}/image`) is not under `src/`; it creates an
Image with a new unique id for the product, and when `is_primary` is true the
new image becomes the product's primary, clearing any prior primary
atomically. -/
def uploadImage (images : List Image) (productId : Int)
    (url thumbnailUrl altText : String) (imageType : ImageType)
    (isPrimary : Bool) : Image × List Image :=
  let newImage : Image :=
    { id := freshImageId images, productId := productId, url := url
      thumbnailUrl := thumbnailUrl, altText := altText
      imageType := imageType, isPrimary := isPrimary }
  let cleared :=
    if isPrimary then images.map (clearPrimaryFn productId) else images
  (newImage, cleared ++ [newImage])

/-- Image-store states reachable from the empty store by uploads and
`setPrimaryImage` calls. -/
inductive Reach : List Image → Prop where
  | init : Reach []
  | upload (images : List Image) (productId : Int)
      (url thumbnailUrl altText : String) (imageType : ImageType)
      (isPrimary : Bool) (h : Reach images) :
      Reach (uploadImage images productId url thumbnailUrl altText
        imageType isPrimary).2
  | setPrimary (images ims' : List Image) (productId imageId : Int)
      (h : Reach images)
      (hok : setPrimaryImage images productId imageId = Except.ok ims') :
      Reach ims'

/-- How many images of the given product carry the primary flag. -/
def primaryCount (images : List Image) (productId : Int) : Nat :=
  images.countP (fun img => img.productId == productId && img.isPrimary)

theorem setPrimaryFn_id (productId imageId : Int) (img : Image) :
    (setPrimaryFn productId imageId img).id = img.id := by
  unfold setPrimaryFn; split <;> rfl

theorem setPrimaryFn_productId (productId imageId : Int) (img : Image) :
    (setPrimaryFn productId imageId img).productId = img.productId := by
  unfold setPrimaryFn; split <;> rfl

theorem clearPrimaryFn_id (productId : Int) (img : Image) :
    (clearPrimaryFn productId img).id = img.id := by
  unfold clearPrimaryFn; split <;> rfl

theorem map_id_map_setPrimaryFn (images : List Image) (productId imageId : Int) :
    (images.map (setPrimaryFn productId imageId)).map (fun i => i.id) =
      images.map (fun i => i.id) := by
  induction images with
  | nil => rfl
  | cons i l ih => simp [setPrimaryFn_id, ih]

theorem map_id_map_clearPrimaryFn (images : List Image) (productId : Int) :
    (images.map (clearPrimaryFn productId)).map (fun i => i.id) =
      images.map (fun i => i.id) := by
  induction images with
  | nil => rfl
  | cons i l ih => simp [clearPrimaryFn_id, ih]

theorem le_foldr_max (l : List Int) (x : Int) (h : x ∈ l) :
    x ≤ l.foldr max 0 := by
  induction l with
  | nil => cases h
  | cons a l ih =>
    rcases List.mem_cons.mp h with rfl | hl
    · exact le_max_left _ _
    · exact le_trans (ih hl) (le_max_right _ _)

theorem freshImageId_not_used (images : List Image) (img : Image)
    (h : img ∈ images) : img.id ≠ freshImageId images := by
  have hle : img.id ≤ (images.map (fun i => i.id)).foldr max 0 :=
    le_foldr_max _ _ (List.mem_map_of_mem _ h)
  unfold freshImageId
  omega

theorem freshImageId_not_mem (images : List Image) :
    freshImageId images ∉ images.map (fun i => i.id) := by
  intro hmem
  obtain ⟨img, hm, heq⟩ := List.mem_map.mp hmem
  exact freshImageId_not_used images img hm heq

theorem primaryCount_nil (productId : Int) : primaryCount [] productId = 0 := rfl

theorem primaryCount_cons (i : Image) (l : List Image) (productId : Int) :
    primaryCount (i :: l) productId =
      primaryCount l productId +
        (if (i.productId == productId && i.isPrimary) then 1 else 0) := by
  simp [primaryCount, List.countP_cons]

theorem primaryCount_append (l1 l2 : List Image) (productId : Int) :
    primaryCount (l1 ++ l2) productId =
      primaryCount l1 productId + primaryCount l2 productId := by
  simp [primaryCount, List.countP_append]

theorem primaryCount_map_clear_self (images : List Image) (productId : Int) :
    primaryCount (images.map (clearPrimaryFn productId)) productId = 0 := by
  induction images with
  | nil => rfl
  | cons i l ih =>
    have hcond : ((clearPrimaryFn productId i).productId == productId &&
        (clearPrimaryFn productId i).isPrimary) = false := by
      unfold clearPrimaryFn
      cases h : (i.productId == productId) <;> simp [h]
    rw [List.map_cons, primaryCount_cons, hcond, ih]
    simp

theorem primaryCount_map_clear_other (images : List Image) (productId q : Int)
    (hq : q ≠ productId) :
    primaryCount (images.map (clearPrimaryFn productId)) q =
      primaryCount images q := by
  induction images with
  | nil => rfl
  | cons i l ih =>
    have hcond : ((clearPrimaryFn productId i).productId == q &&
        (clearPrimaryFn productId i).isPrimary) =
        (i.productId == q && i.isPrimary) := by
      unfold clearPrimaryFn
      cases h : (i.productId == productId)
      · simp [h]
      · have hpid : i.productId = productId := by simpa using h
        have hiq : (i.productId == q) = false := by
          simp [hpid]
          exact fun hqq => hq hqq.symm
        simp [h, hiq]
    rw [List.map_cons, primaryCount_cons, primaryCount_cons, hcond, ih]

theorem primaryCount_map_set_other (images : List Image)
    (productId imageId q : Int) (hq : q ≠ productId) :
    primaryCount (images.map (setPrimaryFn productId imageId)) q =
      primaryCount images q := by
  induction images with
  | nil => rfl
  | cons i l ih =>
    have hcond : ((setPrimaryFn productId imageId i).productId == q &&
        (setPrimaryFn productId imageId i).isPrimary) =
        (i.productId == q && i.isPrimary) := by
      unfold setPrimaryFn
      cases h : (i.productId == productId)
      · simp [h]
      · have hpid : i.productId = productId := by simpa using h
        have hiq : (i.productId == q) = false := by
          simp [hpid]
          exact fun hqq => hq hqq.symm
        simp [h, hiq]
    rw [List.map_cons, primaryCount_cons, primaryCount_cons, hcond, ih]

theorem primaryCount_map_set_self (images : List Image)
    (productId imageId : Int) :
    primaryCount (images.map (setPrimaryFn productId imageId)) productId =
      images.countP (fun i => i.productId == productId && i.id == imageId) := by
  induction images with
  | nil => rfl
  | cons i l ih =>
    have hcond : ((setPrimaryFn productId imageId i).productId == productId &&
        (setPrimaryFn productId imageId i).isPrimary) =
        (i.productId == productId && i.id == imageId) := by
      unfold setPrimaryFn
      cases h : (i.productId == productId) <;> simp [h]
    rw [List.map_cons, primaryCount_cons, hcond, ih, List.countP_cons]

theorem countP_id_le_one (images : List Image) (imageId : Int)
    (hwf : (images.map (fun i => i.id)).Nodup) :
    images.countP (fun i => i.id == imageId) ≤ 1 := by
  induction images with
  | nil => simp
  | cons i l ih =>
    simp only [List.map_cons, List.nodup_cons] at hwf
    obtain ⟨hnin, hnd⟩ := hwf
    rw [List.countP_cons]
    cases h : (i.id == imageId)
    · simpa using ih hnd
    · have hid : i.id = imageId := by simpa using h
      have h0 : l.countP (fun j => j.id == imageId) = 0 := by
        rw [List.countP_eq_zero]
        intro j hj hc
        have hjid : j.id = imageId := by simpa using hc
        have : i.id ∈ l.map (fun k => k.id) := by
          rw [hid, ← hjid]
          exact List.mem_map_of_mem (fun k => k.id) hj
        exact hnin this
      simp [h0, h]

theorem countP_product_id_le_one (images : List Image)
    (productId imageId : Int)
    (hwf : (images.map (fun i => i.id)).Nodup) :
    images.countP (fun i => i.productId == productId && i.id == imageId) ≤ 1 := by
  refine le_trans ?_ (countP_id_le_one images imageId hwf)
  apply List.countP_mono_left
  intro i _ h
  exact ((Bool.and_eq_true _ _).mp h).2

theorem setPrimaryImage_ok_eq (images ims' : List Image)
    (productId imageId : Int)
    (hok : setPrimaryImage images productId imageId = Except.ok ims') :
    ims' = images.map (setPrimaryFn productId imageId) ∧
    images.any (fun img => img.productId == productId && img.id == imageId)
      = true := by
  unfold setPrimaryImage at hok
  cases hA : images.any
      (fun img => img.productId == productId && img.id == imageId) <;>
    rw [hA] at hok <;> simp at hok
  exact ⟨hok.symm, rfl⟩

theorem reach_nodup_ids (images : List Image) (h : Reach images) :
    (images.map (fun i => i.id)).Nodup := by
  induction h with
  | init => simp
  | upload images productId url thumbnailUrl altText imageType isP hR ih =>
    have hclear : ((if isP then images.map (clearPrimaryFn productId)
        else images).map (fun i => i.id)) = images.map (fun i => i.id) := by
      cases isP
      · rfl
      · show (images.map (clearPrimaryFn productId)).map (fun i => i.id) =
          images.map (fun i => i.id)
        exact map_id_map_clearPrimaryFn images productId
    simp only [uploadImage, List.map_append, hclear, List.map_cons,
      List.map_nil]
    rw [List.nodup_append]
    refine ⟨ih, List.nodup_singleton _, ?_⟩
    intro a ha hb
    simp only [List.mem_singleton] at hb
    subst hb
    exact freshImageId_not_mem images ha
  | setPrimary images ims' productId imageId hR hok ih =>
    obtain ⟨heq, -⟩ := setPrimaryImage_ok_eq images ims' productId imageId hok
    subst heq
    rw [map_id_map_setPrimaryFn]
    exact ih

theorem setPrimaryImage_exactly_one (images ims' : List Image)
    (productId imageId : Int)
    (hwf : (images.map (fun i => i.id)).Nodup)
    (hok : setPrimaryImage images productId imageId = Except.ok ims') :
    primaryCount ims' productId = 1 := by
  obtain ⟨heq, hany⟩ := setPrimaryImage_ok_eq images ims' productId imageId hok
  subst heq
  rw [primaryCount_map_set_self]
  have hle := countP_product_id_le_one images productId imageId hwf
  have hpos : 0 < images.countP
      (fun i => i.productId == productId && i.id == imageId) := by
    rw [List.countP_pos_iff]
    obtain ⟨img, hm, hc⟩ := List.any_eq_true.mp hany
    exact ⟨img, hm, hc⟩
  omega

theorem setPrimaryFn_idem (productId imageId : Int) (img : Image) :
    setPrimaryFn productId imageId (setPrimaryFn productId imageId img) =
      setPrimaryFn productId imageId img := by
  unfold setPrimaryFn
  cases h : (img.productId == productId) <;> simp [h]

theorem map_setPrimaryFn_idem (images : List Image) (productId imageId : Int) :
    (images.map (setPrimaryFn productId imageId)).map
        (setPrimaryFn productId imageId) =
      images.map (setPrimaryFn productId imageId) := by
  induction images with
  | nil => rfl
  | cons i l ih => simp [setPrimaryFn_idem, ih]

theorem any_cond_map_set (images : List Image) (productId imageId : Int) :
    ((images.map (setPrimaryFn productId imageId)).any
      (fun img => img.productId == productId && img.id == imageId)) =
    (images.any
      (fun img => img.productId == productId && img.id == imageId)) := by
  induction images with
  | nil => rfl
  | cons i l ih =>
    simp only [List.map_cons, List.any_cons, ih, setPrimaryFn_id,
      setPrimaryFn_productId]

theorem setPrimaryImage_idem (images ims' : List Image)
    (productId imageId : Int)
    (hok : setPrimaryImage images productId imageId = Except.ok ims') :
    setPrimaryImage ims' productId imageId = Except.ok ims' := by
  obtain ⟨heq, hany⟩ := setPrimaryImage_ok_eq images ims' productId imageId hok
  subst heq
  unfold setPrimaryImage
  rw [any_cond_map_set, hany, if_pos rfl, map_setPrimaryFn_idem]

theorem upload_primary_only_new (images : List Image) (productId : Int)
    (url thumbnailUrl altText : String) (imageType : ImageType) :
    ((uploadImage images productId url thumbnailUrl altText
        imageType true).2.filter
      (fun img => img.productId == productId && img.isPrimary)) =
      [(uploadImage images productId url thumbnailUrl altText
        imageType true).1] := by
  simp only [uploadImage, if_true, List.filter_append]
  have h1 : (images.map (clearPrimaryFn productId)).filter
      (fun img => img.productId == productId && img.isPrimary) = [] := by
    rw [List.filter_eq_nil_iff]
    intro img hm
    obtain ⟨i0, hi0, rfl⟩ := List.mem_map.mp hm
    unfold clearPrimaryFn
    cases h : (i0.productId == productId) <;> simp [h]
  rw [h1]
  simp

theorem reach_primaryCount_le_one (images : List Image) (h : Reach images) :
    ∀ productId, primaryCount images productId ≤ 1 := by
  induction h with
  | init => intro productId; simp [primaryCount_nil]
  | upload images q url thumbnailUrl altText imageType isP hR ih =>
    intro productId
    simp only [uploadImage]
    rw [primaryCount_append]
    cases isP
    · simp only [Bool.false_eq_true, if_false]
      have hnew : primaryCount
          [{ id := freshImageId images, productId := q, url := url
             thumbnailUrl := thumbnailUrl, altText := altText
             imageType := imageType, isPrimary := false }] productId = 0 := by
        simp [primaryCount_cons, primaryCount_nil]
      rw [hnew]
      simpa using ih productId
    · simp only [if_true]
      by_cases hpq : productId = q
      · subst hpq
        rw [primaryCount_map_clear_self]
        have hnew : primaryCount
            [{ id := freshImageId images, productId := productId, url := url
               thumbnailUrl := thumbnailUrl, altText := altText
               imageType := imageType, isPrimary := true }] productId ≤ 1 := by
          simp [primaryCount_cons, primaryCount_nil]
        omega
      · rw [primaryCount_map_clear_other images q productId hpq]
        have hnew : primaryCount
            [{ id := freshImageId images, productId := q, url := url
               thumbnailUrl := thumbnailUrl, altText := altText
               imageType := imageType, isPrimary := true }] productId = 0 := by
          have hq : (q == productId) = false := by
            simp
            exact fun hc => hpq hc.symm
          simp [primaryCount_cons, primaryCount_nil, hq]
        rw [hnew]
        simpa using ih productId
  | setPrimary images ims' q imageId hR hok ih =>
    intro productId
    obtain ⟨heq, -⟩ := setPrimaryImage_ok_eq images ims' q imageId hok
    subst heq
    by_cases hpq : productId = q
    · subst hpq
      rw [primaryCount_map_set_self]
      exact countP_product_id_le_one images productId imageId
        (reach_nodup_ids images hR)
    · rw [primaryCount_map_set_other images q imageId productId hpq]
      exact ih productId

/-- C5: in every reachable image-store state, at most one image of any
product carries the primary flag; a successful `setPrimaryImage` leaves the
product with exactly one primary and is idempotent (a second identical call
returns the same store); and an upload with `is_primary: true` leaves the
newly uploaded image as the product's only primary. -/
theorem c5_at_most_one_primary :
    (∀ images, Reach images → ∀ productId, primaryCount images productId ≤ 1) ∧
    (∀ images ims' productId imageId, Reach images →
        setPrimaryImage images productId imageId = Except.ok ims' →
        primaryCount ims' productId = 1 ∧
        setPrimaryImage ims' productId imageId = Except.ok ims') ∧
    (∀ images productId url thumbnailUrl altText imageType,
        ((uploadImage images productId url thumbnailUrl altText
            imageType true).2.filter
          (fun img => img.productId == productId && img.isPrimary)) =
          [(uploadImage images productId url thumbnailUrl altText
            imageType true).1] ∧
        (uploadImage images productId url thumbnailUrl altText
            imageType true).1.isPrimary = true) := by
  refine ⟨reach_primaryCount_le_one, ?_, ?_⟩
  · intro images ims' productId imageId hreach hok
    exact ⟨setPrimaryImage_exactly_one images ims' productId imageId
        (reach_nodup_ids images hreach) hok,
      setPrimaryImage_idem images ims' productId imageId hok⟩
  · intro images productId url thumbnailUrl altText imageType
    exact ⟨upload_primary_only_new images productId url thumbnailUrl altText
      imageType, rfl⟩

/-- The image produced by uploading to the empty store (fresh id 1). -/
def image1 : Image :=
  { id := 1, productId := 7, url := "u.jpg", thumbnailUrl := "t.jpg"
    altText := "alt", imageType := ImageType.main, isPrimary := true }

/-- C5 witness: the theorem applied to the concrete store reached by one
primary upload to product 7, followed by `setPrimaryImage(7, 1)`. -/
theorem c5_at_most_one_primary_witness :
    primaryCount [image1] 7 ≤ 1 ∧
    primaryCount [image1] 7 = 1 ∧
    setPrimaryImage [image1] 7 1 = Except.ok [image1] := by
  have hreach : Reach [image1] :=
    Reach.upload [] 7 "u.jpg" "t.jpg" "alt" ImageType.main true Reach.init
  have h2 := c5_at_most_one_primary.2.1 [image1] [image1] 7 1 hreach rfl
  exact ⟨c5_at_most_one_primary.1 [image1] hreach 7, h2.1, h2.2⟩

end ImageStore

namespace EnhancedPopup

/-- The kinds of popup overlay that `enhanced_popup.js` attaches to the
DOM as `.enhanced-popup-overlay` elements. -/
inductive PopupKind where
  | productEdit
  | galleryGrid
  | imageDetail
deriving Repr, DecidableEq

/-- The client-side UI state the popup code manipulates: the
`.enhanced-popup-overlay` elements currently attached to `document.body`
(in attachment order), whether the loading overlay is up, and the
notification messages shown so far. -/
structure ClientState where
  popups : List PopupKind
  loading : Bool
  notifications : List String
deriving Repr, DecidableEq

/-- `closeAllEnhancedPopups` (enhanced_popup.js line 637): removes every
`.enhanced-popup-overlay` from the DOM. -/
def closeAllEnhancedPopups (s : ClientState) : ClientState :=
  { s with popups := [] }

/-- The success continuation of `showEnhancedProductPopup` — the code after
`await fetch` resolves (enhanced_popup.js lines 65–89).  It builds the popup
HTML and appends a new overlay to `document.body` unconditionally: nothing
inspects which popups are currently open, so the overlay is appended on top
of whatever the user is looking at when the response arrives.  Afterwards
the loading overlay is hidden. -/
def completeProductPopup (s : ClientState) : ClientState :=
  { s with popups := s.popups ++ [PopupKind.productEdit], loading := false }

/-- The catch branch of `showEnhancedProductPopup` (lines 91–97). -/
def completeProductPopupError (s : ClientState) : ClientState :=
  { s with
      loading := false
      notifications := s.notifications ++
        ["Could not load product details. Please try again."] }

/-- `setupPopupOnClick` in popup.js (lines 9–42) drives the simple per-card
`.product-popup` elements, modelled as (card id, active?) pairs.  A click on
a product image removes `active` from every other popup and toggles this
card's popup. -/
def clickProductImage (cards : List (Int × Bool)) (cardId : Int) :
    List (Int × Bool) :=
  cards.map (fun c => if c.1 == cardId then (c.1, !c.2) else (c.1, false))

/-- How many per-card popups carry the `active` class. -/
def activeCount (cards : List (Int × Bool)) : Nat :=
  cards.countP (fun c => c.2)

/-- The class names of the markup returned by `createProductPopupHtml`
(enhanced_popup.js lines 157–209), including the optional additional-images
block (lines 161–175).  No element of this markup has the class
`popup-content` (that class occurs only in `createImagePopupHtml`). -/
def productPopupHtmlClasses (hasAdditionalImages : Bool) : List String :=
  ["enhanced-popup-content", "product-popup-type", "enhanced-popup-header",
   "close-btn", "enhanced-popup-body", "popup-main-image", "popup-details",
   "form-group", "popup-field", "detail-group", "popup-actions",
   "btn-save-popup", "btn-view-all", "btn-cancel-popup"] ++
  (if hasAdditionalImages then
    ["enhanced-popup-gallery", "gallery-container", "gallery-item",
     "gallery-image"]
   else [])

/-- `container.querySelector('.cls')`: an element iff the class occurs in
the container's markup. -/
def querySelectorClass (classes : List String) (cls : String) : Option Unit :=
  if cls ∈ classes then some () else none

/-- A thrown JavaScript runtime error. -/
inductive JsError where
  | typeError
deriving Repr, DecidableEq

/-- The `.then` continuation of the `Promise.all` in
`showProductGalleryPopup` (enhanced_popup.js lines 363–577), in program
order: line 373 sets `popupContainer.innerHTML` from
`createProductPopupHtml`, line 376 queries `.popup-content` on that
container, and line 443 calls `popupContent.appendChild(gallerySection)` —
a TypeError when `popupContent` is null.  `document.body.appendChild`
(line 448), which would attach the gallery popup, comes only after that
call, so a thrown TypeError means no overlay is attached. -/
def galleryThenBranch (hasAdditionalImages : Bool) :
    Except JsError PopupKind :=
  let container := productPopupHtmlClasses hasAdditionalImages
  match querySelectorClass container "popup-content" with
  | some _ => Except.ok PopupKind.galleryGrid
  | none => Except.error JsError.typeError

/-- `showProductGalleryPopup` (enhanced_popup.js lines 354–584): a
`Promise.all` of the product fetch and the gallery fetch.  Only when both
resolve does the `.then` branch run; a rejection of either, or an exception
thrown inside `.then`, lands in the `.catch`, which hides the loading
overlay and shows the failure notification. -/
def showProductGalleryPopup (s : ClientState)
    (productRes : Except Unit Bool) (galleryRes : Except Unit (List Int)) :
    ClientState :=
  match productRes, galleryRes with
  | Except.ok hasAdditionalImages, Except.ok _images =>
    match galleryThenBranch hasAdditionalImages with
    | Except.ok popup =>
      { s with popups := s.popups ++ [popup], loading := false }
    | Except.error _ =>
      { s with
          loading := false
          notifications := s.notifications ++
            ["Failed to load product gallery. Please try again."] }
  | _, _ =>
    { s with
        loading := false
        notifications := s.notifications ++
          ["Failed to load product gallery. Please try again."] }

/-- One observable effect of a save/delete handler, in source program
order. -/
inductive SaveStep where
  | showLoading
  | disableControl (control : String)
  | fetchStart
  | fetchEnd
  | hideLoading
  | notify (message : String)
  | enableControl (control : String)
  | closePopups
  | throwReferenceError
deriving Repr, DecidableEq, BEq

/-- Whether a step disables some control. -/
def isDisableStep : SaveStep → Bool
  | SaveStep.disableControl _ => true
  | _ => false

/-- Whether a step re-enables some control. -/
def isEnableStep : SaveStep → Bool
  | SaveStep.enableControl _ => true
  | _ => false

/-- The guard the spec requires of a save handler: the named control is
disabled before the request starts and re-enabled only after it settles. -/
def disabledDuringFetch (t : List SaveStep) (control : String) : Bool :=
  match t.findIdx? (fun s => s == SaveStep.fetchStart) with
  | none => true
  | some fetchIdx =>
    match t.findIdx? (fun s => s == SaveStep.disableControl control) with
    | none => false
    | some disableIdx =>
      decide (disableIdx < fetchIdx) &&
      (match t.findIdx? (fun s => s == SaveStep.enableControl control),
            t.findIdx? (fun s => s == SaveStep.fetchEnd) with
       | some enableIdx, some fetchEndIdx => decide (fetchEndIdx < enableIdx)
       | some _, none => false
       | none, _ => true)

/-- The effects of `savePopupChanges` (enhanced_popup.js lines 772–860) on
its success path, in program order: `showLoadingOverlay()` (775), the PUT
fetch (812–818), `hideLoadingOverlay()` (827), the success notification
(828), `closeAllEnhancedPopups()` (831).  The handler never touches
`disabled` on any control. -/
def savePopupChangesSteps : List SaveStep :=
  [SaveStep.showLoading, SaveStep.fetchStart, SaveStep.fetchEnd,
   SaveStep.hideLoading, SaveStep.notify "Changes saved successfully",
   SaveStep.closePopups]

/-- The effects of `saveImageChanges` (enhanced_popup.js lines 869–932) on
its success path: `showLoadingOverlay()` (872), the save button disabled
(893–895), the PUT fetch (898–904), `hideLoadingOverlay()` (913), the
notification (914), and then the `finally` block (927–931) — which throws a
ReferenceError at its first statement: `const saveButton` (line 893) is
scoped to the `try` block, and no enclosing binding exists, so
`saveButton.textContent` at line 929 is an access to an undeclared name.
The button is therefore never re-enabled; the trace contains no
`enableControl` step. -/
def saveImageChangesSteps : List SaveStep :=
  [SaveStep.showLoading, SaveStep.disableControl "btn-save",
   SaveStep.fetchStart, SaveStep.fetchEnd, SaveStep.hideLoading,
   SaveStep.notify "Image updated successfully!",
   SaveStep.throwReferenceError]

/-- The effects of `deleteImage` (enhanced_popup.js lines 934–966): the
delete button disabled (936–938), the DELETE fetch (940–942), the
notification (951), and the button re-enabled in `finally` (961–965). -/
def deleteImageSteps : List SaveStep :=
  [SaveStep.disableControl "btn-delete", SaveStep.fetchStart,
   SaveStep.fetchEnd, SaveStep.notify "Image deleted successfully!",
   SaveStep.enableControl "btn-delete"]

theorem activeCount_nil : activeCount [] = 0 := rfl

theorem activeCount_cons (c : Int × Bool) (l : List (Int × Bool)) :
    activeCount (c :: l) = activeCount l + (if c.2 then 1 else 0) := by
  simp [activeCount, List.countP_cons]

/-- The simple popup.js click handler does enforce single-activity: after
any click, at most one per-card popup is active (given distinct card
ids). -/
theorem clickProductImage_at_most_one_active (cards : List (Int × Bool))
    (cardId : Int) (h : (cards.map Prod.fst).Nodup) :
    activeCount (clickProductImage cards cardId) ≤ 1 := by
  induction cards with
  | nil => simp [clickProductImage, activeCount]
  | cons c l ih =>
    simp only [List.map_cons, List.nodup_cons] at h
    obtain ⟨hnin, hnd⟩ := h
    have hsplit : clickProductImage (c :: l) cardId =
        (if c.1 == cardId then (c.1, !c.2) else (c.1, false)) ::
          clickProductImage l cardId := by
      simp [clickProductImage]
    rw [hsplit, activeCount_cons]
    cases hc : (c.1 == cardId)
    · simp only [Bool.false_eq_true, if_false]
      simpa using ih hnd
    · have hcid : c.1 = cardId := by simpa using hc
      have h0 : activeCount (clickProductImage l cardId) = 0 := by
        unfold activeCount clickProductImage
        rw [List.countP_map, List.countP_eq_zero]
        intro j hj hcon
        have hj1 : (j.1 == cardId) = false := by
          have hne : j.1 ≠ cardId := by
            intro he
            exact hnin (hcid ▸ he ▸ List.mem_map_of_mem Prod.fst hj)
          simpa using hne
        simp only [Function.comp_apply, hj1, Bool.false_eq_true, if_false]
          at hcon
      rw [h0]
      cases c.2 <;> simp

/-- A state in which only the gallery-grid popup is open. -/
def galleryOpenState : ClientState :=
  { popups := [PopupKind.galleryGrid], loading := false, notifications := [] }

/-- C4 counterexample: a product-edit response whose completion callback
runs while only the gallery-grid popup is open does NOT no-op — it changes
the UI state, appending a product-edit overlay on top of the gallery
popup. -/
theorem c4_counterexample :
    completeProductPopup galleryOpenState ≠ galleryOpenState ∧
    (completeProductPopup galleryOpenState).popups =
      [PopupKind.galleryGrid, PopupKind.productEdit] := by
  exact ⟨by decide, rfl⟩

/-- C4 (amended): the completion callback of a product-popup fetch is
unguarded — whatever is open when the response arrives, it appends a
product-edit overlay on top (leaving the previously open popups, and the
notification list, as they were); there is no stale-response suppression in
the code. -/
theorem c4_stale_response_still_applied (s : ClientState) :
    (completeProductPopup s).popups = s.popups ++ [PopupKind.productEdit] ∧
    (completeProductPopup s).notifications = s.notifications :=
  ⟨rfl, rfl⟩

/-- C6 counterexample: the enhanced popup completion is a popup-opening
operation that does not close the already-open popup first — the resulting
state has two popup overlays in the DOM at once. -/
theorem c6_counterexample :
    (completeProductPopup
      { popups := [PopupKind.galleryGrid], loading := true
        notifications := [] }).popups.length = 2 := rfl

/-- C6 (amended): the simple popup.js click handler does close every other
active card popup before toggling, so at most one per-card popup is active
after a click; but the enhanced popup openers never close existing overlays
themselves (closing happens only at some call sites), so a popup completion
stacks its overlay on top of whatever is open. -/
theorem c6_simple_popups_exclusive_enhanced_not (cards : List (Int × Bool))
    (cardId : Int) (h : (cards.map Prod.fst).Nodup) :
    activeCount (clickProductImage cards cardId) ≤ 1 ∧
    ∀ s : ClientState,
      (completeProductPopup s).popups = s.popups ++ [PopupKind.productEdit] :=
  ⟨clickProductImage_at_most_one_active cards cardId h, fun _ => rfl⟩

/-- C6 witness: the amended theorem applied to two concrete cards with
distinct ids, one of them active. -/
theorem c6_simple_popups_exclusive_enhanced_not_witness :
    activeCount (clickProductImage [(1, false), (2, true)] 1) ≤ 1 ∧
    (completeProductPopup galleryOpenState).popups =
      galleryOpenState.popups ++ [PopupKind.productEdit] :=
  ⟨(c6_simple_popups_exclusive_enhanced_not [(1, false), (2, true)] 1
      (by decide)).1,
   (c6_simple_popups_exclusive_enhanced_not [(1, false), (2, true)] 1
      (by decide)).2 galleryOpenState⟩

/-- C8: the generated product-popup markup has no `popup-content` element,
so the success branch of the gallery transition's `Promise.all` throws at
`popupContent.appendChild` before the overlay reaches `document.body`; for
every pair of fetch outcomes — both succeeding included — the transition
attaches no popup and reports the gallery failure notification. -/
theorem c8_gallery_transition_always_fails :
    (∀ hasAdditionalImages,
      querySelectorClass (productPopupHtmlClasses hasAdditionalImages)
        "popup-content" = none) ∧
    (∀ (s : ClientState) (productRes : Except Unit Bool)
        (galleryRes : Except Unit (List Int)),
      (showProductGalleryPopup s productRes galleryRes).popups = s.popups ∧
      (showProductGalleryPopup s productRes galleryRes).notifications =
        s.notifications ++
          ["Failed to load product gallery. Please try again."]) := by
  constructor
  · intro hA
    cases hA <;> rfl
  · intro s pr gr
    cases pr with
    | error e => exact ⟨rfl, rfl⟩
    | ok hA =>
      cases gr with
      | error e => exact ⟨rfl, rfl⟩
      | ok imgs => cases hA <;> exact ⟨rfl, rfl⟩

/-- C9 counterexample: the product-save handler (`savePopupChanges`) leaves
its triggering control enabled for the whole request — it contains no
disable step at all, so its save button is not disabled while the PUT is in
flight. -/
theorem c9_counterexample :
    disabledDuringFetch savePopupChangesSteps "btn-save-popup" = false ∧
    savePopupChangesSteps.filter isDisableStep = [] :=
  ⟨rfl, rfl⟩

/-- C9 (amended): the image-save and image-delete handlers disable their
buttons before issuing the request, so those controls are disabled while
their request is in flight; the image-delete handler re-enables its button
after the request settles, but the image-save handler never re-enables its
button at all (its `finally` block dereferences the try-scoped
`const saveButton` and throws a ReferenceError), and the product-save
handler disables nothing (it relies only on the loading overlay), so its
control stays clickable during the request. -/
theorem c9_only_image_actions_guarded :
    disabledDuringFetch saveImageChangesSteps "btn-save" = true ∧
    saveImageChangesSteps.filter isEnableStep = [] ∧
    disabledDuringFetch deleteImageSteps "btn-delete" = true ∧
    deleteImageSteps.filter isEnableStep =
      [SaveStep.enableControl "btn-delete"] ∧
    ∀ control, disabledDuringFetch savePopupChangesSteps control = false := by
  refine ⟨rfl, rfl, rfl, rfl, ?_⟩
  intro control
  rfl

end EnhancedPopup
